import Mathlib

/-!
Verification of the elevatr tile-resolution and mosaic pipeline.

This file gives a shallow embedding of the core functions of the
repository (src/elevatr/utils.py, downloader.py, raster_operations.py,
raster.py) and proves or refutes the frozen specification claims about
them.

Conventions of the embedding:

* Python floats that enter the discrete tile arithmetic are modelled as
  exact rationals (`ℚ`); the transcendental Web-Mercator projection
  (math.radians / math.tan / math.asinh / math.pi) is modelled over `ℝ`
  with the corresponding real functions.
* Python `int(...)` applied to a float truncates toward zero; this is
  `truncR` / `truncQ` below.
* The filesystem used by the tile cache is a partial map from paths to
  byte lists, `FS`.  The HTTP layer is an oracle `String → NetResult`
  whose streaming body may fail mid-transfer, matching
  `requests.get(..., stream=True)` / `iter_content` semantics.
* External library calls with no algorithmic content in this repository
  (rasterio mosaicking, pyproj point transforms, CRS unit lookup) are
  oracle parameters; external library calls whose documented behaviour
  the code relies on for a claim (rasterio window arithmetic
  `from_bounds`, `Window.crop`, windowed reads) are modelled explicitly
  from that documented behaviour and marked as such.
-/

namespace Elevatr

/-- Truncation toward zero of a rational, i.e. Python `int(q)`. -/
def truncQ (q : ℚ) : ℤ := if 0 ≤ q then ⌊q⌋ else ⌈q⌉

/-- Truncation toward zero of a real, i.e. Python `int(x)` on a float. -/
noncomputable def truncR (r : ℝ) : ℤ := if 0 ≤ r then ⌊r⌋ else ⌈r⌉

/-- src/elevatr/utils.py, `_lonlat_to_tilenum`: convert geographic
coordinates to tile numbers at a zoom level.  Mirrors the source:
`x = (1 + lon_rad/pi)/2`, `y = (1 - asinh(tan(lat_rad))/pi)/2`,
`n_tiles = 2**zoom`, tile = `max(0, min(n_tiles - 1, int(frac * n_tiles)))`. -/
noncomputable def _lonlat_to_tilenum (lon_deg lat_deg : ℝ) (zoom : ℕ) : ℤ × ℤ :=
  let lon_rad : ℝ := lon_deg * (Real.pi / 180)
  let lat_rad : ℝ := lat_deg * (Real.pi / 180)
  let x : ℝ := (1 + lon_rad / Real.pi) / 2
  let y : ℝ := (1 - Real.arsinh (Real.tan lat_rad) / Real.pi) / 2
  let n_tiles : ℤ := 2 ^ zoom
  let xtile : ℤ := max 0 (min (n_tiles - 1) (truncR (x * (n_tiles : ℝ))))
  let ytile : ℤ := max 0 (min (n_tiles - 1) (truncR (y * (n_tiles : ℝ))))
  (xtile, ytile)

/-- src/elevatr/utils.py, `_get_tile_xy` lines 100-106: the bounding-box
normalization step.  `xmin, xmax = sorted([xmin, xmax])`,
`ymin, ymax = sorted([ymin, ymax])`, then longitudes greater than
`MAX_LONGITUDE = 180` are wrapped by subtracting 360. -/
def normalizeBbx : ℚ × ℚ × ℚ × ℚ → ℚ × ℚ × ℚ × ℚ
  | (xmin0, ymin0, xmax0, ymax0) =>
    let xmin1 := min xmin0 xmax0
    let xmax1 := max xmin0 xmax0
    let ymin1 := min ymin0 ymax0
    let ymax1 := max ymin0 ymax0
    let xmin2 := if xmin1 > 180 then xmin1 - 360 else xmin1
    let xmax2 := if xmax1 > 180 then xmax1 - 360 else xmax1
    (xmin2, ymin1, xmax2, ymax1)

/-- src/elevatr/utils.py, `_get_tile_xy` lines 121-126: the tile grid
enumeration `np.meshgrid(np.arange(xmin, xmax+1), np.arange(ymin, ymax+1))`
flattened with x as the outer index and y as the inner index, exactly the
row order of the resulting DataFrame. -/
def tileEnum (xmin xmax ymin ymax : ℤ) : List (ℤ × ℤ) :=
  (List.range (xmax + 1 - xmin).toNat).flatMap fun (j : ℕ) =>
    (List.range (ymax + 1 - ymin).toNat).map fun (i : ℕ) =>
      (xmin + (j : ℤ), ymin + (i : ℤ))

/-- src/elevatr/utils.py, `_get_tile_xy`: normalize the box, convert the
two corners with `_lonlat_to_tilenum`, swap the y tile indices if needed,
enumerate the grid and apply the zoom 0 / zoom 1 clamping filters. -/
noncomputable def _get_tile_xy (bbx : ℚ × ℚ × ℚ × ℚ) (zoom : ℕ) : List (ℤ × ℤ) :=
  let nb := normalizeBbx bbx
  let min_tile := _lonlat_to_tilenum (nb.1 : ℝ) (nb.2.1 : ℝ) zoom
  let max_tile := _lonlat_to_tilenum (nb.2.2.1 : ℝ) (nb.2.2.2 : ℝ) zoom
  let xm := min_tile.1
  let xM := max_tile.1
  let ym := if min_tile.2 > max_tile.2 then max_tile.2 else min_tile.2
  let yM := if min_tile.2 > max_tile.2 then min_tile.2 else max_tile.2
  let tiles := tileEnum xm xM ym yM
  if zoom = 1 then tiles.filter fun t => decide (t.1 < 2 ∧ t.2 < 2)
  else if zoom = 0 then tiles.filter fun t => decide (t.1 < 1 ∧ t.2 < 1)
  else tiles

/-- Valid lon/lat range for a bounding box `(xmin, ymin, xmax, ymax)`,
matching the input validation of `get_elev_raster`. -/
def validBbx (b : ℚ × ℚ × ℚ × ℚ) : Prop :=
  -180 ≤ b.1 ∧ b.1 ≤ 180 ∧ -90 ≤ b.2.1 ∧ b.2.1 ≤ 90 ∧
    -180 ≤ b.2.2.1 ∧ b.2.2.1 ≤ 180 ∧ -90 ≤ b.2.2.2 ∧ b.2.2.2 ≤ 90

instance : DecidablePred validBbx := fun b => by
  unfold validBbx
  infer_instance

lemma truncR_intCast (n : ℤ) : truncR (n : ℝ) = n := by
  unfold truncR
  split <;> simp

lemma truncR_ratCast (q : ℚ) : truncR (q : ℝ) = truncQ q := by
  unfold truncR truncQ
  rcases le_or_lt 0 q with h | h
  · rw [if_pos (by exact_mod_cast h), if_pos h, Rat.floor_cast]
  · rw [if_neg (by exact_mod_cast not_le.mpr h), if_neg (not_le.mpr h), Rat.ceil_cast]

lemma truncR_mono {a b : ℝ} (h : a ≤ b) : truncR a ≤ truncR b := by
  unfold truncR
  rcases le_or_lt 0 a with ha | ha
  · rw [if_pos ha, if_pos (ha.trans h)]
    exact Int.floor_le_floor h
  · rw [if_neg (not_le.mpr ha)]
    rcases le_or_lt 0 b with hb | hb
    · rw [if_pos hb]
      exact le_trans (Int.ceil_le.mpr (by exact_mod_cast ha.le)) (Int.floor_nonneg.mpr hb)
    · rw [if_neg (not_le.mpr hb)]
      exact Int.ceil_le_ceil h

lemma truncR_nonpos_of_lt_one {r : ℝ} (h : r < 1) : truncR r ≤ 0 := by
  unfold truncR
  rcases le_or_lt 0 r with hr | hr
  · rw [if_pos hr]
    have : ⌊r⌋ < 1 := Int.floor_lt.mpr (by exact_mod_cast h)
    omega
  · rw [if_neg (not_le.mpr hr)]
    exact Int.ceil_le.mpr (by exact_mod_cast hr.le)

lemma truncR_ge_of_le {z : ℤ} {r : ℝ} (hz : 0 ≤ z) (h : (z : ℝ) ≤ r) :
    z ≤ truncR r := by
  unfold truncR
  rw [if_pos (le_trans (by exact_mod_cast hz) h)]
  exact Int.le_floor.mpr h

/-- The clamp `max 0 (min (n - 1) v)` always lands in `[0, n - 1]` when
`1 ≤ n`. -/
lemma clamp_bounds (n v : ℤ) (hn : 1 ≤ n) :
    0 ≤ max 0 (min (n - 1) v) ∧ max 0 (min (n - 1) v) ≤ n - 1 := by
  omega

lemma lonlat_to_tilenum_bounds (lon lat : ℝ) (zoom : ℕ) :
    0 ≤ (_lonlat_to_tilenum lon lat zoom).1 ∧
      (_lonlat_to_tilenum lon lat zoom).1 ≤ 2 ^ zoom - 1 ∧
      0 ≤ (_lonlat_to_tilenum lon lat zoom).2 ∧
      (_lonlat_to_tilenum lon lat zoom).2 ≤ 2 ^ zoom - 1 := by
  have hn : (0 : ℤ) < 2 ^ zoom := pow_pos (by norm_num) zoom
  unfold _lonlat_to_tilenum
  refine ⟨?_, ?_, ?_, ?_⟩ <;> dsimp only <;> omega

lemma mem_tileEnum {t : ℤ × ℤ} {a b c d : ℤ} (h : t ∈ tileEnum a b c d) :
    a ≤ t.1 ∧ t.1 ≤ b ∧ c ≤ t.2 ∧ t.2 ≤ d := by
  unfold tileEnum at h
  obtain ⟨j, hj, hmem⟩ := List.mem_flatMap.mp h
  obtain ⟨i, hi, heq⟩ := List.mem_map.mp hmem
  rw [List.mem_range] at hj hi
  subst heq
  refine ⟨?_, ?_, ?_, ?_⟩ <;> dsimp only <;> omega

lemma corner_mem_tileEnum {a b c d : ℤ} (hab : a ≤ b) (hcd : c ≤ d) :
    (a, c) ∈ tileEnum a b c d := by
  unfold tileEnum
  refine List.mem_flatMap.mpr ⟨0, List.mem_range.mpr (by omega), ?_⟩
  exact List.mem_map.mpr ⟨0, List.mem_range.mpr (by omega), by simp⟩

lemma tileEnum_ne_nil {a b c d : ℤ} (hab : a ≤ b) (hcd : c ≤ d) :
    tileEnum a b c d ≠ [] :=
  List.ne_nil_of_mem (corner_mem_tileEnum hab hcd)

lemma tileEnum_eq_nil {a b c d : ℤ} (h : b < a) : tileEnum a b c d = [] := by
  unfold tileEnum
  rw [show (b + 1 - a).toNat = 0 from by omega]
  rfl

lemma lonlat_to_tilenum_zoom_zero (lon lat : ℝ) :
    _lonlat_to_tilenum lon lat 0 = (0, 0) := by
  unfold _lonlat_to_tilenum
  dsimp only
  norm_num

lemma get_tile_xy_bounds (bbx : ℚ × ℚ × ℚ × ℚ) (zoom : ℕ) :
    ∀ t ∈ _get_tile_xy bbx zoom,
      0 ≤ t.1 ∧ t.1 < 2 ^ zoom ∧ 0 ≤ t.2 ∧ t.2 < 2 ^ zoom := by
  intro t ht
  have hn : (0 : ℤ) < 2 ^ zoom := pow_pos (by norm_num) zoom
  unfold _get_tile_xy at ht
  dsimp only at ht
  obtain ⟨h1a, h1b, h1c, h1d⟩ :=
    lonlat_to_tilenum_bounds ((normalizeBbx bbx).1 : ℝ) ((normalizeBbx bbx).2.1 : ℝ) zoom
  obtain ⟨h2a, h2b, h2c, h2d⟩ :=
    lonlat_to_tilenum_bounds ((normalizeBbx bbx).2.2.1 : ℝ) ((normalizeBbx bbx).2.2.2 : ℝ) zoom
  split_ifs at ht <;>
    first
      | (obtain ⟨hmem, -⟩ := List.mem_filter.mp ht
         obtain ⟨ha, hb, hc, hd⟩ := mem_tileEnum hmem
         omega)
      | (obtain ⟨ha, hb, hc, hd⟩ := mem_tileEnum ht
         omega)

lemma get_tile_xy_zoom_zero (bbx : ℚ × ℚ × ℚ × ℚ) :
    _get_tile_xy bbx 0 = [(0, 0)] := by
  unfold _get_tile_xy
  dsimp only
  rw [lonlat_to_tilenum_zoom_zero, lonlat_to_tilenum_zoom_zero]
  decide

lemma get_tile_xy_zoom_one (bbx : ℚ × ℚ × ℚ × ℚ) :
    ∀ t ∈ _get_tile_xy bbx 1, t ∈ [((0 : ℤ), (0 : ℤ)), (0, 1), (1, 0), (1, 1)] := by
  intro t ht
  obtain ⟨h1, h2, h3, h4⟩ := get_tile_xy_bounds bbx 1 t ht
  obtain ⟨x, y⟩ := t
  dsimp only at h1 h2 h3 h4
  norm_num at h2 h4
  have hx : x = 0 ∨ x = 1 := by omega
  have hy : y = 0 ∨ y = 1 := by omega
  rcases hx with rfl | rfl <;> rcases hy with rfl | rfl <;> simp

/-- C1: for every zoom `z` in `[0, 14]` and every bounding box inside the
valid lon/lat range, every tile coordinate `(x, y)` produced by the tile
indexer `_get_tile_xy` satisfies `0 ≤ x < 2^z` and `0 ≤ y < 2^z`; at zoom
0 the result is exactly the single tile `(0, 0)` and at zoom 1 it is a
subset of the four tiles `(0,0), (0,1), (1,0), (1,1)`. -/
theorem C1_tile_indexer_range (bbx : ℚ × ℚ × ℚ × ℚ) (zoom : ℕ)
    (hzoom : zoom ≤ 14) (hvalid : validBbx bbx) :
    (∀ t ∈ _get_tile_xy bbx zoom,
        0 ≤ t.1 ∧ t.1 < 2 ^ zoom ∧ 0 ≤ t.2 ∧ t.2 < 2 ^ zoom) ∧
      _get_tile_xy bbx 0 = [(0, 0)] ∧
      ∀ t ∈ _get_tile_xy bbx 1, t ∈ [((0 : ℤ), (0 : ℤ)), (0, 1), (1, 0), (1, 1)] :=
  ⟨get_tile_xy_bounds bbx zoom, get_tile_xy_zoom_zero bbx, get_tile_xy_zoom_one bbx⟩

/-- Witness for C1 at the concrete box `(0, 0, 1, 1)` and zoom 2. -/
theorem C1_tile_indexer_range_witness :
    (∀ t ∈ _get_tile_xy ((0 : ℚ), (0 : ℚ), (1 : ℚ), (1 : ℚ)) 2,
        0 ≤ t.1 ∧ t.1 < 2 ^ 2 ∧ 0 ≤ t.2 ∧ t.2 < 2 ^ 2) ∧
      _get_tile_xy ((0 : ℚ), (0 : ℚ), (1 : ℚ), (1 : ℚ)) 0 = [(0, 0)] ∧
      ∀ t ∈ _get_tile_xy ((0 : ℚ), (0 : ℚ), (1 : ℚ), (1 : ℚ)) 1,
        t ∈ [((0 : ℤ), (0 : ℤ)), (0, 1), (1, 0), (1, 1)] :=
  C1_tile_indexer_range (0, 0, 1, 1) 2 (by norm_num) (by decide)

lemma truncR_eq_intCast (z : ℤ) (r : ℝ) (h : r = (z : ℝ)) : truncR r = z := by
  rw [h, truncR_intCast]

/-- The x tile fraction simplifies: `(1 + radians(lon)/pi)/2 = (1 + lon/180)/2`. -/
lemma lonlat_to_tilenum_def (lon lat : ℝ) (zoom : ℕ) :
    _lonlat_to_tilenum lon lat zoom =
      (max 0 (min ((2 ^ zoom : ℤ) - 1)
          (truncR ((1 + lon / 180) / 2 * ((2 ^ zoom : ℤ) : ℝ)))),
        max 0 (min ((2 ^ zoom : ℤ) - 1)
          (truncR ((1 - Real.arsinh (Real.tan (lat * (Real.pi / 180))) / Real.pi) / 2
            * ((2 ^ zoom : ℤ) : ℝ))))) := by
  have h : lon * (Real.pi / 180) / Real.pi = lon / 180 := by
    rw [div_eq_div_iff Real.pi_ne_zero (by norm_num : (180 : ℝ) ≠ 0)]
    ring
  unfold _lonlat_to_tilenum
  dsimp only
  rw [h]

/-- Numeric bound used by the C6 cases at latitude 85: the exponential at 3. -/
lemma exp_three_lt : Real.exp 3 < 20.086 := by
  have h3 : Real.exp 3 = Real.exp 1 ^ 3 := by
    rw [← Real.exp_nat_mul]
    norm_num
  rw [h3]
  have h1 := Real.exp_one_lt_d9
  have h2 := (Real.exp_pos 1).le
  calc Real.exp 1 ^ 3 < 2.7182818286 ^ 3 := pow_lt_pow_left₀ h1 h2 (by norm_num)
    _ < 20.086 := by norm_num

lemma sinh_seven_pi_div_eight_lt : Real.sinh (7 * Real.pi / 8) < 10.05 := by
  have h1 : Real.exp (7 * Real.pi / 8) < Real.exp 3 := by
    apply Real.exp_lt_exp.mpr
    have := Real.pi_lt_d2
    linarith
  have h2 := exp_three_lt
  have h4 : 0 < Real.exp (-(7 * Real.pi / 8)) := Real.exp_pos _
  rw [Real.sinh_eq]
  linarith

/-- The Web-Mercator y term at latitude 85 degrees:
`asinh(tan(85 deg)) > 7 pi / 8`.  This is the inequality that drives both
`lonlat_to_tilenum(180, 85, 4) = (15, 0)` and
`lonlat_to_tilenum(0, -85, 3) = (4, 7)`. -/
lemma arsinh_tan_85_gt :
    7 * Real.pi / 8 < Real.arsinh (Real.tan ((85 : ℝ) * (Real.pi / 180))) := by
  have hang : (85 : ℝ) * (Real.pi / 180) = Real.pi / 2 - Real.pi / 36 := by ring
  rw [hang, Real.tan_pi_div_two_sub]
  have hpi1 := Real.pi_gt_d2
  have hpi2 := Real.pi_lt_d2
  set u := Real.pi / 36 with hu
  have hu0 : 0 < u := by rw [hu]; linarith
  have huB : u < 7 / 80 := by rw [hu]; linarith
  have hsin_pos : 0 < Real.sin u := Real.sin_pos_of_pos_of_lt_pi hu0 (by rw [hu]; linarith)
  have hsin_lt : Real.sin u < 7 / 80 := lt_trans (Real.sin_lt hu0) huB
  have hcos_gt : (12751 : ℝ) / 12800 < Real.cos u := by
    have h1 : 1 - u ^ 2 / 2 ≤ Real.cos u := Real.one_sub_sq_div_two_le_cos
    nlinarith
  have htan_inv : (1020080 : ℝ) / 89600 < (Real.tan u)⁻¹ := by
    rw [Real.tan_eq_sin_div_cos, inv_div]
    rw [div_lt_div_iff₀ (by norm_num) hsin_pos]
    nlinarith
  have hkey : Real.sinh (7 * Real.pi / 8) < (Real.tan u)⁻¹ := by
    have h10 : (10.05 : ℝ) < 1020080 / 89600 := by norm_num
    have := sinh_seven_pi_div_eight_lt
    linarith
  calc 7 * Real.pi / 8 = Real.arsinh (Real.sinh (7 * Real.pi / 8)) :=
        (Real.arsinh_sinh _).symm
    _ < Real.arsinh (Real.tan u)⁻¹ := Real.arsinh_lt_arsinh.mpr hkey

lemma tilenum_0_0_2 : _lonlat_to_tilenum 0 0 2 = (2, 2) := by
  rw [lonlat_to_tilenum_def]
  simp only [zero_mul, Real.tan_zero, Real.arsinh_zero, zero_div, sub_zero]
  norm_num [truncR, Prod.ext_iff]

lemma tilenum_neg180_0_2 : _lonlat_to_tilenum (-180) 0 2 = (0, 2) := by
  rw [lonlat_to_tilenum_def]
  simp only [zero_mul, Real.tan_zero, Real.arsinh_zero, zero_div, sub_zero]
  norm_num [truncR, Prod.ext_iff]

lemma tilenum_180_85_4 : _lonlat_to_tilenum 180 85 4 = (15, 0) := by
  rw [lonlat_to_tilenum_def]
  have hpi := Real.pi_pos
  have ha := arsinh_tan_85_gt
  have hs : (7 : ℝ) / 8 < Real.arsinh (Real.tan ((85 : ℝ) * (Real.pi / 180))) / Real.pi := by
    rw [lt_div_iff₀ hpi]
    linarith
  have hlt : (1 - Real.arsinh (Real.tan ((85 : ℝ) * (Real.pi / 180))) / Real.pi) / 2
      * ((2 ^ 4 : ℤ) : ℝ) < 1 := by
    push_cast
    nlinarith
  have hk := truncR_nonpos_of_lt_one hlt
  rw [Prod.ext_iff]
  constructor
  · norm_num [truncR]
  · dsimp only
    omega

lemma tilenum_0_neg85_3 : _lonlat_to_tilenum 0 (-85) 3 = (4, 7) := by
  rw [lonlat_to_tilenum_def]
  rw [show ((-85 : ℝ)) * (Real.pi / 180) = -((85 : ℝ) * (Real.pi / 180)) from by ring]
  rw [Real.tan_neg, Real.arsinh_neg, neg_div, sub_neg_eq_add]
  have hpi := Real.pi_pos
  have ha := arsinh_tan_85_gt
  have hs : (7 : ℝ) / 8 < Real.arsinh (Real.tan ((85 : ℝ) * (Real.pi / 180))) / Real.pi := by
    rw [lt_div_iff₀ hpi]
    linarith
  have hge : ((7 : ℤ) : ℝ) ≤ (1 + Real.arsinh (Real.tan ((85 : ℝ) * (Real.pi / 180))) / Real.pi) / 2
      * ((2 ^ 3 : ℤ) : ℝ) := by
    push_cast
    nlinarith
  have hk := truncR_ge_of_le (by norm_num) hge
  rw [Prod.ext_iff]
  constructor
  · norm_num [truncR]
  · dsimp only
    omega

/-- C6: the four concrete tile-number equations from the spec hold for the
embedded `_lonlat_to_tilenum`. -/
theorem C6_lonlat_to_tilenum_examples :
    _lonlat_to_tilenum 0 0 2 = (2, 2) ∧
      _lonlat_to_tilenum (-180) 0 2 = (0, 2) ∧
      _lonlat_to_tilenum 180 85 4 = (15, 0) ∧
      _lonlat_to_tilenum 0 (-85) 3 = (4, 7) :=
  ⟨tilenum_0_0_2, tilenum_neg180_0_2, tilenum_180_85_4, tilenum_0_neg85_3⟩

lemma lonlat_to_tilenum_x_mono {lon1 lon2 : ℝ} (lat1 lat2 : ℝ) (zoom : ℕ)
    (h : lon1 ≤ lon2) :
    (_lonlat_to_tilenum lon1 lat1 zoom).1 ≤ (_lonlat_to_tilenum lon2 lat2 zoom).1 := by
  rw [lonlat_to_tilenum_def, lonlat_to_tilenum_def]
  dsimp only
  have hn : (0 : ℝ) ≤ ((2 ^ zoom : ℤ) : ℝ) := by
    exact_mod_cast pow_nonneg (by norm_num : (0 : ℤ) ≤ 2) zoom
  have hmul : (1 + lon1 / 180) / 2 * ((2 ^ zoom : ℤ) : ℝ)
      ≤ (1 + lon2 / 180) / 2 * ((2 ^ zoom : ℤ) : ℝ) := by
    apply mul_le_mul_of_nonneg_right _ hn
    linarith
  have := truncR_mono hmul
  omega

/-- Counterexample to C5: the antimeridian-style box `(170, 0, 190, 1)`
(min longitude 170, max longitude 190) is wrapped only on its max side, so
after normalization `max_x = -170 < 170 = min_x`, and the subsequent tile
enumeration at zoom 6 is empty. -/
theorem C5_normalization_counterexample :
    (normalizeBbx (170, 0, 190, 1)).2.2.1 < (normalizeBbx (170, 0, 190, 1)).1 ∧
      _get_tile_xy (170, 0, 190, 1) 6 = [] := by
  have hnb : normalizeBbx (170, 0, 190, 1) = ((170 : ℚ), (0 : ℚ), (-170 : ℚ), (1 : ℚ)) := by
    norm_num [normalizeBbx]
  constructor
  · rw [hnb]
    norm_num
  · have hx1 : (_lonlat_to_tilenum (((170 : ℚ) : ℝ)) (((0 : ℚ) : ℝ)) 6).1 = 62 := by
      rw [lonlat_to_tilenum_def]
      norm_num [truncR]
    have hx2 : (_lonlat_to_tilenum (((-170 : ℚ) : ℝ)) (((1 : ℚ) : ℝ)) 6).1 = 1 := by
      rw [lonlat_to_tilenum_def]
      norm_num [truncR]
    unfold _get_tile_xy
    dsimp only
    rw [hnb]
    dsimp only
    rw [if_neg (by norm_num), if_neg (by norm_num)]
    rw [hx1, hx2]
    exact tileEnum_eq_nil (by norm_num)

lemma enum_branch_ne_nil (p q : ℤ × ℤ) (zoom : ℕ) (hx : p.1 ≤ q.1)
    (hp1 : 0 ≤ p.1) (hp2 : p.1 ≤ 2 ^ zoom - 1)
    (hp3 : 0 ≤ p.2) (hp4 : p.2 ≤ 2 ^ zoom - 1)
    (hq3 : 0 ≤ q.2) (hq4 : q.2 ≤ 2 ^ zoom - 1) :
    (if zoom = 1 then
        (tileEnum p.1 q.1 (if p.2 > q.2 then q.2 else p.2)
            (if p.2 > q.2 then p.2 else q.2)).filter fun t => decide (t.1 < 2 ∧ t.2 < 2)
      else if zoom = 0 then
        (tileEnum p.1 q.1 (if p.2 > q.2 then q.2 else p.2)
            (if p.2 > q.2 then p.2 else q.2)).filter fun t => decide (t.1 < 1 ∧ t.2 < 1)
      else tileEnum p.1 q.1 (if p.2 > q.2 then q.2 else p.2)
        (if p.2 > q.2 then p.2 else q.2)) ≠ [] := by
  obtain ⟨pa, pb⟩ := p
  obtain ⟨qa, qb⟩ := q
  dsimp only at *
  set ylo := (if pb > qb then qb else pb) with hylodef
  set yhi := (if pb > qb then pb else qb) with hyhidef
  have hy1 : ylo ≤ yhi := by rw [hylodef, hyhidef]; split_ifs <;> omega
  have hy2 : 0 ≤ ylo := by rw [hylodef]; split_ifs <;> omega
  have hy3 : ylo ≤ 2 ^ zoom - 1 := by rw [hylodef]; split_ifs <;> omega
  split_ifs with hz1 hz0
  · subst hz1
    norm_num at hp2 hy3
    refine List.ne_nil_of_mem (List.mem_filter.mpr ⟨corner_mem_tileEnum hx hy1, ?_⟩)
    simp only [decide_eq_true_eq]
    exact ⟨by omega, by omega⟩
  · subst hz0
    norm_num at hp2 hy3
    refine List.ne_nil_of_mem (List.mem_filter.mpr ⟨corner_mem_tileEnum hx hy1, ?_⟩)
    simp only [decide_eq_true_eq]
    exact ⟨by omega, by omega⟩
  · exact tileEnum_ne_nil hx hy1

/-- C5 amended: after the sorting step the box satisfies
`min_x ≤ max_x` and `min_y ≤ max_y` and longitudes greater than 180 are
wrapped by subtracting 360; however the wrap preserves the x order (and
hence yields a non-empty tile enumeration) only when the two longitudes
are on the same side of 180 (both greater, or both not greater).  A box
with exactly one longitude above 180 inverts the x order and produces an
empty enumeration (see the counterexample). -/
theorem C5_normalization_amended (bbx : ℚ × ℚ × ℚ × ℚ) (zoom : ℕ)
    (hwrap : 180 < max bbx.1 bbx.2.2.1 → 180 < min bbx.1 bbx.2.2.1) :
    ((normalizeBbx bbx).1 ≤ (normalizeBbx bbx).2.2.1 ∧
        (normalizeBbx bbx).2.1 ≤ (normalizeBbx bbx).2.2.2) ∧
      (180 < min bbx.1 bbx.2.2.1 → (normalizeBbx bbx).1 = min bbx.1 bbx.2.2.1 - 360) ∧
      (180 < max bbx.1 bbx.2.2.1 → (normalizeBbx bbx).2.2.1 = max bbx.1 bbx.2.2.1 - 360) ∧
      _get_tile_xy bbx zoom ≠ [] := by
  obtain ⟨x0, y0, x1, y1⟩ := bbx
  dsimp only at hwrap
  have hminmax : min x0 x1 ≤ max x0 x1 := min_le_max
  have horder : (normalizeBbx (x0, y0, x1, y1)).1 ≤ (normalizeBbx (x0, y0, x1, y1)).2.2.1 := by
    simp only [normalizeBbx]
    split_ifs with h1 h2
    · linarith
    · linarith
    · exact absurd (hwrap (by linarith)) h1
    · exact hminmax
  refine ⟨⟨horder, ?_⟩, ?_, ?_, ?_⟩
  · simp only [normalizeBbx]
    exact min_le_max
  · intro h
    simp only [normalizeBbx]
    rw [if_pos (by exact_mod_cast h)]
  · intro h
    simp only [normalizeBbx]
    rw [if_pos (by exact_mod_cast h)]
  · -- the tile enumeration is non-empty
    have hxm : ((normalizeBbx (x0, y0, x1, y1)).1 : ℝ) ≤ ((normalizeBbx (x0, y0, x1, y1)).2.2.1 : ℝ) := by
      exact_mod_cast horder
    unfold _get_tile_xy
    dsimp only
    have hx := lonlat_to_tilenum_x_mono
      (((normalizeBbx (x0, y0, x1, y1)).2.1 : ℝ)) (((normalizeBbx (x0, y0, x1, y1)).2.2.2 : ℝ))
      zoom hxm
    obtain ⟨h1a, h1b, h1c, h1d⟩ := lonlat_to_tilenum_bounds
      (((normalizeBbx (x0, y0, x1, y1)).1 : ℝ)) (((normalizeBbx (x0, y0, x1, y1)).2.1 : ℝ)) zoom
    obtain ⟨h2a, h2b, h2c, h2d⟩ := lonlat_to_tilenum_bounds
      (((normalizeBbx (x0, y0, x1, y1)).2.2.1 : ℝ)) (((normalizeBbx (x0, y0, x1, y1)).2.2.2 : ℝ)) zoom
    exact enum_branch_ne_nil _ _ zoom hx h1a h1b h1c h1d h2c h2d

/-- Witness for the amended C5 at the concrete box `(0, 0, 10, 10)` and
zoom 2 (no longitude above 180, so the wrap hypothesis holds vacuously). -/
theorem C5_normalization_amended_witness :
    ((normalizeBbx ((0 : ℚ), (0 : ℚ), (10 : ℚ), (10 : ℚ))).1
          ≤ (normalizeBbx ((0 : ℚ), (0 : ℚ), (10 : ℚ), (10 : ℚ))).2.2.1 ∧
        (normalizeBbx ((0 : ℚ), (0 : ℚ), (10 : ℚ), (10 : ℚ))).2.1
          ≤ (normalizeBbx ((0 : ℚ), (0 : ℚ), (10 : ℚ), (10 : ℚ))).2.2.2) ∧
      (180 < min (0 : ℚ) 10 →
        (normalizeBbx ((0 : ℚ), (0 : ℚ), (10 : ℚ), (10 : ℚ))).1 = min (0 : ℚ) 10 - 360) ∧
      (180 < max (0 : ℚ) 10 →
        (normalizeBbx ((0 : ℚ), (0 : ℚ), (10 : ℚ), (10 : ℚ))).2.2.1 = max (0 : ℚ) 10 - 360) ∧
      _get_tile_xy ((0 : ℚ), (0 : ℚ), (10 : ℚ), (10 : ℚ)) 2 ≠ [] :=
  C5_normalization_amended (0, 0, 10, 10) 2 (by norm_num)

/-! ## Downloader (src/elevatr/downloader.py) -/

deriving instance DecidableEq for Except

/-- Byte-level file contents. -/
abbrev FileBytes := List ℕ

/-- The tile cache filesystem: a partial map from paths to file contents. -/
abbrev FS := String → Option FileBytes

/-- Write a file at a path. -/
def fsWrite (fs : FS) (p : String) (content : FileBytes) : FS :=
  fun q => if q = p then some content else fs q

/-- Substring test, Python `needle in hay`. -/
def strContains (hay needle : String) : Bool :=
  (List.range (hay.data.length + 1)).any fun i =>
    decide ((hay.data.drop i).take needle.data.length = needle.data)

/-- One element of a streaming HTTP body (`response.iter_content`): either
a chunk of bytes, or a transport error raised mid-stream. -/
inductive StreamItem where
  | chunk (c : FileBytes)
  | errItem (msg : String)

/-- A connected HTTP response: status flag (2xx or not, checked by
`raise_for_status`), status message, declared Content-Type header, and
the streamed body. -/
structure NetResponse where
  okStatus : Bool
  statusMsg : String
  contentType : String
  stream : List StreamItem

/-- Result of `requests.get`: a connected response, or a transport error
(timeout / connection refused) raised before any response arrives. -/
inductive NetResult where
  | conn (r : NetResponse)
  | connError (msg : String)

def BASE_URL : String := "https://s3.amazonaws.com/elevation-tiles-prod/geotiff"

/-- The remote tile URL `BASE_URL/zoom/x/y.tif` built by `_get_aws_terrain`. -/
def tileUrl (zoom : ℕ) (t : ℤ × ℤ) : String :=
  BASE_URL ++ "/" ++ toString zoom ++ "/" ++ toString t.1 ++ "/" ++ toString t.2 ++ ".tif"

/-- Helper for `pySplit`: split a character list on a separator. -/
def splitOnCharAux (sep : Char) : List Char → List Char → List (List Char)
  | [], acc => [acc.reverse]
  | c :: rest, acc =>
      if c = sep then acc.reverse :: splitOnCharAux sep rest []
      else splitOnCharAux sep rest (c :: acc)

/-- Python `s.split(sep)` for a one-character separator. -/
def pySplit (s : String) (sep : Char) : List String :=
  (splitOnCharAux sep s.data []).map String.mk

/-- src/elevatr/downloader.py, `_construct_tile_filename`: cache filename
from the URL.  `urlparse(url).path.split("/")` equals `""` followed by the
slash-split URL minus its scheme and host; for the URLs built by this
module it is `["", "elevation-tiles-prod", "geotiff", zoom, x, "y.tif"]`,
so the Python indices `[-4] [-3] [-2]` are total here and modelled with a
default, and `Path(url).name` is the last slash-separated component. -/
def _construct_tile_filename (cache_folder url : String) : String :=
  let path_segments : List String := "" :: (pySplit url '/').drop 3
  let n := path_segments.length
  let filename := path_segments.getD (n - 4) "" ++ "_" ++ path_segments.getD (n - 3) ""
    ++ "_" ++ path_segments.getD (n - 2) "" ++ "_" ++ (pySplit url '/').getLastD ""
  cache_folder ++ "/" ++ filename

/-- The body-writing step of `_download_tile`:
`Path(destination).open("wb")` followed by
`file.writelines(response.iter_content(...))`.  Opening with mode `wb`
truncates the destination, and the context manager flushes what was
written when an exception escapes, so a mid-stream transport error leaves
the bytes received so far at the destination path. -/
def writeChunks (fs : FS) (destination : String) (written : FileBytes) :
    List StreamItem → Except String Unit × FS
  | [] => (Except.ok (), fsWrite fs destination written)
  | StreamItem.chunk c :: rest => writeChunks fs destination (written ++ c) rest
  | StreamItem.errItem e :: _ => (Except.error e, fsWrite fs destination written)

/-- src/elevatr/downloader.py, `_download_tile`.  Returns the result
(`Except.error` models the raised exception) together with the filesystem
after the call.  Error messages are the source's
`f"Failed to download {url}: {e}"` (transport failures, wrapped in
`RuntimeError`) and `f"Invalid file type for URL {url}"` (`ValueError`
for a bad Content-Type, checked before anything is written).  The
post-download rasterio tag update is metadata-only and not modelled. -/
def _download_tile (net : String → NetResult) (url destination : String) (fs : FS) :
    Except String String × FS :=
  match net url with
  | NetResult.connError e =>
      (Except.error ("Failed to download " ++ url ++ ": " ++ e), fs)
  | NetResult.conn r =>
      if r.okStatus = false then
        (Except.error ("Failed to download " ++ url ++ ": " ++ r.statusMsg), fs)
      else if strContains r.contentType "image/tif" = false then
        (Except.error ("Invalid file type for URL " ++ url), fs)
      else
        match writeChunks fs destination [] r.stream with
        | (Except.ok _, fs2) => (Except.ok destination, fs2)
        | (Except.error e, fs2) =>
            (Except.error ("Failed to download " ++ url ++ ": " ++ e), fs2)

/-- src/elevatr/downloader.py, `_filter_cached_and_uncached`: split the
URL list into cached file paths and uncached URLs, preserving order. -/
def _filter_cached_and_uncached (cache_folder : String) (use_cache : Bool) (fs : FS) :
    List String → List String × List String
  | [] => ([], [])
  | url :: rest =>
      let filepath := _construct_tile_filename cache_folder url
      let r := _filter_cached_and_uncached cache_folder use_cache fs rest
      if (fs filepath).isSome && use_cache then (filepath :: r.1, r.2)
      else (r.1, url :: r.2)

/-- The download loop of `_get_aws_terrain` over the uncached URLs, with
`acc` the `downloaded_tiles` accumulator (initialised with the cached
files).  Also returns the filesystem after the loop and the trace of URLs
on which a network request was made. -/
def downloadAll (net : String → NetResult) (cache_folder : String) :
    FS → List String → List String → List String →
      Except String (List String) × FS × List String
  | fs, acc, called, [] => (Except.ok acc, fs, called)
  | fs, acc, called, url :: rest =>
      let filepath := _construct_tile_filename cache_folder url
      match _download_tile net url filepath fs with
      | (Except.ok d, fs2) =>
          downloadAll net cache_folder fs2 (acc ++ [d]) (called ++ [url]) rest
      | (Except.error e, fs2) => (Except.error e, fs2, called ++ [url])

/-- src/elevatr/downloader.py, `_get_aws_terrain`, from the point where
the tile URL list has been built: split cached/uncached, short-circuit
when everything is cached, otherwise run the download loop seeded with
the cached files. -/
def _get_aws_terrain_urls (net : String → NetResult) (cache_folder : String)
    (use_cache : Bool) (fs : FS) (urls : List String) :
    Except String (List String) × FS × List String :=
  let fc := _filter_cached_and_uncached cache_folder use_cache fs urls
  if fc.2 = [] then (Except.ok fc.1, fs, [])
  else downloadAll net cache_folder fs fc.1 [] fc.2

/-- src/elevatr/downloader.py, `_get_aws_terrain`: build the tile URL list
from the indexer output and fetch. -/
noncomputable def _get_aws_terrain (net : String → NetResult)
    (bbx : ℚ × ℚ × ℚ × ℚ) (zoom : ℕ) (cache_folder : String)
    (use_cache : Bool) (fs : FS) :
    Except String (List String) × FS × List String :=
  _get_aws_terrain_urls net cache_folder use_cache fs
    ((_get_tile_xy bbx zoom).map (tileUrl zoom))

/-! ## Mosaic merger (src/elevatr/raster_operations.py, `_merge_rasters`) -/

/-- Errors raised by Python builtins in the embedded fragments. -/
inductive PyError where
  | indexError (msg : String)
  deriving DecidableEq

/-- Python list indexing `l[i]` for a nonnegative index: `IndexError`
past the end. -/
def pyGet {α : Type} (l : List α) (i : ℕ) : Except PyError α :=
  match l.get? i with
  | some a => Except.ok a
  | none => Except.error (PyError.indexError "list index out of range")

/-- src/elevatr/raster_operations.py, `_merge_rasters`: opens
`raster_list[0]` (Python indexing, so `IndexError` on an empty list)
and the remaining rasters `raster_list[1:]`, then delegates the
mosaicking, metadata assembly and tag union to rasterio; that external
work carries no repository logic and is the oracle `openMerge`. -/
def _merge_rasters {M : Type} (openMerge : String → List String → M)
    (raster_list : List String) : Except PyError M :=
  match pyGet raster_list 0 with
  | Except.error e => Except.error e
  | Except.ok first => Except.ok (openMerge first (raster_list.drop 1))

lemma strContains_append_right (a s : String) : strContains (a ++ s) s = true := by
  unfold strContains
  rw [List.any_eq_true]
  refine ⟨a.data.length, List.mem_range.mpr ?_, ?_⟩
  · rw [String.data_append, List.length_append]
    omega
  · rw [decide_eq_true_eq, String.data_append, List.drop_left, List.take_length]

lemma strContains_append_mid (a s b : String) : strContains (a ++ s ++ b) s = true := by
  unfold strContains
  rw [List.any_eq_true]
  refine ⟨a.data.length, List.mem_range.mpr ?_, ?_⟩
  · rw [String.data_append, String.data_append, List.length_append, List.length_append]
    omega
  · rw [decide_eq_true_eq, String.data_append, String.data_append, List.append_assoc,
      List.drop_left, List.take_left]

lemma download_tile_ok_dest {net : String → NetResult} {url destination : String} {fs : FS}
    {d : String} {fs2 : FS}
    (h : _download_tile net url destination fs = (Except.ok d, fs2)) : d = destination := by
  unfold _download_tile at h
  rcases hn : net url with r | e
  · rw [hn] at h
    dsimp only at h
    split_ifs at h
    · simp at h
    · simp at h
    · rcases hw : writeChunks fs destination [] r.stream with ⟨res, fs3⟩
      rw [hw] at h
      rcases res with e0 | u
      · simp at h
      · simp only [Prod.mk.injEq, Except.ok.injEq] at h
        exact h.1.symm
  · rw [hn] at h
    simp at h

lemma downloadAll_ok (net : String → NetResult) (cache_folder : String) :
    ∀ (us : List String) (fs : FS) (acc called paths : List String) (fs2 : FS)
      (called2 : List String),
      downloadAll net cache_folder fs acc called us = (Except.ok paths, fs2, called2) →
        paths = acc ++ us.map (_construct_tile_filename cache_folder) ∧
          called2 = called ++ us := by
  intro us
  induction us with
  | nil =>
    intro fs acc called paths fs2 called2 h
    unfold downloadAll at h
    simp only [Prod.mk.injEq, Except.ok.injEq] at h
    obtain ⟨h1, h2, h3⟩ := h
    constructor
    · rw [← h1]
      simp
    · rw [← h3]
      simp
  | cons url rest ih =>
    intro fs acc called paths fs2 called2 h
    unfold downloadAll at h
    dsimp only at h
    rcases hd : _download_tile net url (_construct_tile_filename cache_folder url) fs
      with ⟨res, fs3⟩
    rw [hd] at h
    rcases res with e | d
    · simp at h
    · dsimp only at h
      obtain ⟨h1, h2⟩ := ih fs3 (acc ++ [d]) (called ++ [url]) paths fs2 called2 h
      have hdst := download_tile_ok_dest hd
      subst hdst
      constructor
      · rw [h1]
        simp
      · rw [h2]
        simp

lemma downloadAll_trace (net : String → NetResult) (cache_folder : String) :
    ∀ (us : List String) (fs : FS) (acc called : List String),
      ∃ t, (downloadAll net cache_folder fs acc called us).2.2 = called ++ t ∧
        t.Sublist us := by
  intro us
  induction us with
  | nil =>
    intro fs acc called
    refine ⟨[], ?_, List.nil_sublist _⟩
    simp [downloadAll]
  | cons url rest ih =>
    intro fs acc called
    unfold downloadAll
    dsimp only
    rcases hd : _download_tile net url (_construct_tile_filename cache_folder url) fs
      with ⟨res, fs3⟩
    rcases res with e | d
    · refine ⟨[url], rfl, ?_⟩
      exact (List.nil_sublist rest).cons₂ url
    · dsimp only
      obtain ⟨t, ht1, ht2⟩ := ih fs3 (acc ++ [d]) (called ++ [url])
      refine ⟨url :: t, ?_, ht2.cons₂ url⟩
      rw [ht1]
      simp

lemma filter_split_perm (cache_folder : String) (use_cache : Bool) (fs : FS) :
    ∀ urls : List String,
      ((_filter_cached_and_uncached cache_folder use_cache fs urls).1 ++
          (_filter_cached_and_uncached cache_folder use_cache fs urls).2.map
            (_construct_tile_filename cache_folder)).Perm
        (urls.map (_construct_tile_filename cache_folder)) := by
  intro urls
  induction urls with
  | nil => simp [_filter_cached_and_uncached]
  | cons url rest ih =>
    unfold _filter_cached_and_uncached
    dsimp only
    split_ifs with h
    · exact ih.cons _
    · exact List.Perm.trans List.perm_middle (ih.cons _)

lemma mem_uncached_cond (cache_folder : String) (use_cache : Bool) (fs : FS) :
    ∀ (urls : List String) (u : String),
      u ∈ (_filter_cached_and_uncached cache_folder use_cache fs urls).2 →
        ((fs (_construct_tile_filename cache_folder u)).isSome && use_cache) = false := by
  intro urls
  induction urls with
  | nil =>
    intro u h
    simp [_filter_cached_and_uncached] at h
  | cons url rest ih =>
    intro u h
    unfold _filter_cached_and_uncached at h
    dsimp only at h
    split_ifs at h with hc
    · exact ih u h
    · rcases List.mem_cons.mp h with rfl | h2
      · simpa using hc
      · exact ih u h2

lemma cached_path_mem (cache_folder : String) (use_cache : Bool) (fs : FS) :
    ∀ (urls : List String) (u : String), u ∈ urls →
      ((fs (_construct_tile_filename cache_folder u)).isSome && use_cache) = true →
        _construct_tile_filename cache_folder u ∈
          (_filter_cached_and_uncached cache_folder use_cache fs urls).1 := by
  intro urls
  induction urls with
  | nil =>
    intro u h
    simp at h
  | cons url rest ih =>
    intro u hu hcond
    unfold _filter_cached_and_uncached
    dsimp only
    rcases List.mem_cons.mp hu with rfl | h2
    · rw [if_pos hcond]
      exact List.mem_cons_self _ _
    · split_ifs with hc
      · exact List.mem_cons_of_mem _ (ih u h2 hcond)
      · exact ih u h2 hcond

lemma uncached_sublist (cache_folder : String) (use_cache : Bool) (fs : FS) :
    ∀ urls : List String,
      (_filter_cached_and_uncached cache_folder use_cache fs urls).2.Sublist urls := by
  intro urls
  induction urls with
  | nil => simp [_filter_cached_and_uncached]
  | cons url rest ih =>
    unfold _filter_cached_and_uncached
    dsimp only
    split_ifs with h
    · exact ih.cons url
    · exact ih.cons₂ url

lemma terrain_trace_sublist (net : String → NetResult) (cache_folder : String)
    (use_cache : Bool) (fs : FS) (urls : List String) :
    (_get_aws_terrain_urls net cache_folder use_cache fs urls).2.2.Sublist
      (_filter_cached_and_uncached cache_folder use_cache fs urls).2 := by
  unfold _get_aws_terrain_urls
  dsimp only
  split_ifs with h
  · simp
  · obtain ⟨t, ht1, ht2⟩ := downloadAll_trace net cache_folder
      (_filter_cached_and_uncached cache_folder use_cache fs urls).2 fs
      (_filter_cached_and_uncached cache_folder use_cache fs urls).1 []
    rw [ht1]
    simpa using ht2

lemma terrain_ok_paths (net : String → NetResult) (cache_folder : String)
    (use_cache : Bool) (fs : FS) (urls paths : List String) (fs2 : FS)
    (called : List String)
    (h : _get_aws_terrain_urls net cache_folder use_cache fs urls
        = (Except.ok paths, fs2, called)) :
    paths = (_filter_cached_and_uncached cache_folder use_cache fs urls).1 ++
      (_filter_cached_and_uncached cache_folder use_cache fs urls).2.map
        (_construct_tile_filename cache_folder) := by
  unfold _get_aws_terrain_urls at h
  dsimp only at h
  split_ifs at h with hemp
  · simp only [Prod.mk.injEq, Except.ok.injEq] at h
    rw [← h.1, hemp]
    simp
  · exact (downloadAll_ok net cache_folder _ fs _ [] paths fs2 called h).1

/-- C2 amended: when the fetch succeeds, the returned list holds exactly
one cache path per input URL — it is a permutation of the per-URL cache
paths — and its order is: paths of cache-satisfied URLs first (in input
order), then paths of downloaded URLs (in input order).  The order
therefore matches the input enumeration only when the cached URLs form a
prefix of the enumeration (for example when all or none are cached), not
in general. -/
theorem C2_fetcher_paths_amended (net : String → NetResult) (cache_folder : String)
    (use_cache : Bool) (fs : FS) (urls paths : List String) (fs2 : FS)
    (called : List String)
    (h : _get_aws_terrain_urls net cache_folder use_cache fs urls
        = (Except.ok paths, fs2, called)) :
    paths = (_filter_cached_and_uncached cache_folder use_cache fs urls).1 ++
        (_filter_cached_and_uncached cache_folder use_cache fs urls).2.map
          (_construct_tile_filename cache_folder) ∧
      paths.Perm (urls.map (_construct_tile_filename cache_folder)) := by
  have h1 := terrain_ok_paths net cache_folder use_cache fs urls paths fs2 called h
  refine ⟨h1, ?_⟩
  rw [h1]
  exact filter_split_perm cache_folder use_cache fs urls

/-- Witness for the amended C2: a single URL satisfied from the cache. -/
theorem C2_fetcher_paths_amended_witness :
    (["cache/geotiff_1_1_1.tif"]
        = (_filter_cached_and_uncached "cache" true
            (fun p => if p = "cache/geotiff_1_1_1.tif" then some [] else none)
            ["https://s3.amazonaws.com/elevation-tiles-prod/geotiff/1/1/1.tif"]).1 ++
          (_filter_cached_and_uncached "cache" true
            (fun p => if p = "cache/geotiff_1_1_1.tif" then some [] else none)
            ["https://s3.amazonaws.com/elevation-tiles-prod/geotiff/1/1/1.tif"]).2.map
            (_construct_tile_filename "cache")) ∧
      (["cache/geotiff_1_1_1.tif"]).Perm
        ((["https://s3.amazonaws.com/elevation-tiles-prod/geotiff/1/1/1.tif"]).map
          (_construct_tile_filename "cache")) :=
  C2_fetcher_paths_amended (fun _ => NetResult.connError "unused") "cache" true
    (fun p => if p = "cache/geotiff_1_1_1.tif" then some [] else none)
    ["https://s3.amazonaws.com/elevation-tiles-prod/geotiff/1/1/1.tif"]
    ["cache/geotiff_1_1_1.tif"]
    (fun p => if p = "cache/geotiff_1_1_1.tif" then some [] else none) []
    (by rfl)

lemma tilenum_neg10_0_1 : _lonlat_to_tilenum (((-10 : ℚ) : ℝ)) (((0 : ℚ) : ℝ)) 1 = (0, 1) := by
  rw [lonlat_to_tilenum_def]
  push_cast
  simp only [zero_mul, Real.tan_zero, Real.arsinh_zero, zero_div, sub_zero]
  norm_num [truncR, Prod.ext_iff]

lemma tilenum_10_0_1 : _lonlat_to_tilenum (((10 : ℚ) : ℝ)) (((0 : ℚ) : ℝ)) 1 = (1, 1) := by
  rw [lonlat_to_tilenum_def]
  push_cast
  simp only [zero_mul, Real.tan_zero, Real.arsinh_zero, zero_div, sub_zero]
  norm_num [truncR, Prod.ext_iff]

/-- At zoom 1 the box `(-10, 0, 10, 0)` resolves to the two tiles
`(0, 1)` and `(1, 1)`, in this enumeration order. -/
lemma tile_xy_cex : _get_tile_xy ((-10 : ℚ), (0 : ℚ), (10 : ℚ), (0 : ℚ)) 1 = [(0, 1), (1, 1)] := by
  have hnb : normalizeBbx ((-10 : ℚ), (0 : ℚ), (10 : ℚ), (0 : ℚ))
      = ((-10 : ℚ), (0 : ℚ), (10 : ℚ), (0 : ℚ)) := by decide
  unfold _get_tile_xy
  dsimp only
  rw [hnb]
  dsimp only
  rw [tilenum_neg10_0_1, tilenum_10_0_1]
  decide

/-- Counterexample to C2: for the tile set `[(0,1), (1,1)]` produced by
the indexer at zoom 1 for the box `(-10, 0, 10, 0)`, pre-caching only the
second tile makes the fetcher return the cached path first and the
downloaded path second — the reverse of the input enumeration order. -/
theorem C2_fetcher_order_counterexample :
    (_get_aws_terrain
          (fun _ => NetResult.conn
            { okStatus := true, statusMsg := "", contentType := "image/tiff", stream := [] })
          ((-10 : ℚ), (0 : ℚ), (10 : ℚ), (0 : ℚ)) 1 "cache" true
          (fun p => if p = "cache/geotiff_1_1_1.tif" then some [] else none)).1
        = Except.ok ["cache/geotiff_1_1_1.tif", "cache/geotiff_1_0_1.tif"] ∧
      (_get_tile_xy ((-10 : ℚ), (0 : ℚ), (10 : ℚ), (0 : ℚ)) 1).map
          (fun t => _construct_tile_filename "cache" (tileUrl 1 t))
        = ["cache/geotiff_1_0_1.tif", "cache/geotiff_1_1_1.tif"] ∧
      (["cache/geotiff_1_1_1.tif", "cache/geotiff_1_0_1.tif"]
        ≠ ["cache/geotiff_1_0_1.tif", "cache/geotiff_1_1_1.tif"]) := by
  refine ⟨?_, ?_, by decide⟩
  · unfold _get_aws_terrain
    rw [tile_xy_cex]
    decide
  · rw [tile_xy_cex]
    decide

/-- Failure stage of `_download_tile` that happens before the destination
file is opened for writing: connection-level error, non-2xx status, or a
Content-Type without `image/tif`. -/
def preWriteFail (net : String → NetResult) (url : String) : Bool :=
  match net url with
  | NetResult.connError _ => true
  | NetResult.conn r => !r.okStatus || !(strContains r.contentType "image/tif")

/-- C3 amended: every failing fetch raises an error whose message names
the offending URL; and whenever the failure occurs before the write stage
(transport error at connection, non-2xx status, or invalid content type)
the cache filesystem is unchanged.  A transport failure in the middle of
the body stream still names the URL, but the destination file has already
been truncated and partially rewritten (see the counterexample). -/
theorem C3_download_failure_amended (net : String → NetResult) (url destination : String)
    (fs : FS) :
    (∀ e, (_download_tile net url destination fs).1 = Except.error e →
        strContains e url = true) ∧
      (preWriteFail net url = true → (_download_tile net url destination fs).2 = fs) := by
  constructor
  · intro e he
    unfold _download_tile at he
    rcases hn : net url with r | msg
    · rw [hn] at he
      dsimp only at he
      split_ifs at he with h1 h2
      · simp only [Except.error.injEq] at he
        subst he
        rw [String.append_assoc]
        exact strContains_append_mid "Failed to download " url (": " ++ r.statusMsg)
      · simp only [Except.error.injEq] at he
        subst he
        exact strContains_append_right "Invalid file type for URL " url
      · rcases hw : writeChunks fs destination [] r.stream with ⟨res, fs3⟩
        rw [hw] at he
        rcases res with e0 | u
        · dsimp only at he
          simp only [Except.error.injEq] at he
          subst he
          rw [String.append_assoc]
          exact strContains_append_mid "Failed to download " url (": " ++ e0)
        · simp at he
    · rw [hn] at he
      dsimp only at he
      simp only [Except.error.injEq] at he
      subst he
      rw [String.append_assoc]
      exact strContains_append_mid "Failed to download " url (": " ++ msg)
  · intro hpre
    unfold preWriteFail at hpre
    unfold _download_tile
    rcases hn : net url with r | msg
    · rw [hn] at hpre
      dsimp only at hpre
      dsimp only
      split_ifs with h1 h2
      · rfl
      · rfl
      · exfalso
        simp only [Bool.not_eq_false] at h1 h2
        rw [h1, h2] at hpre
        simp at hpre
    · rfl

/-- Witness for the amended C3 at a concrete connection failure. -/
theorem C3_download_failure_amended_witness :
    strContains "Failed to download u: boom" "u" = true ∧
      (_download_tile (fun _ => NetResult.connError "boom") "u" "d"
          (fun _ => none)).2 = (fun _ => none : FS) :=
  ⟨(C3_download_failure_amended (fun _ => NetResult.connError "boom") "u" "d"
      (fun _ => none)).1 "Failed to download u: boom" (by decide),
    (C3_download_failure_amended (fun _ => NetResult.connError "boom") "u" "d"
      (fun _ => none)).2 (by decide)⟩

/-- Counterexample to C3: a transport error in the middle of the body
stream ("timeout" after one 2-byte chunk) raises an error naming the URL,
but leaves a partial 2-byte file at the destination cache path, which held
no file before the call — the cache entry is changed by the failed fetch. -/
theorem C3_download_failure_counterexample :
    ((_download_tile
          (fun _ => NetResult.conn
            { okStatus := true, statusMsg := "", contentType := "image/tiff",
              stream := [StreamItem.chunk [1, 2], StreamItem.errItem "timeout"] })
          "u" "cache/t.tif" (fun _ => none)).1
        = Except.error "Failed to download u: timeout") ∧
      (_download_tile
          (fun _ => NetResult.conn
            { okStatus := true, statusMsg := "", contentType := "image/tiff",
              stream := [StreamItem.chunk [1, 2], StreamItem.errItem "timeout"] })
          "u" "cache/t.tif" (fun _ => none)).2 "cache/t.tif" = some [1, 2] ∧
      (fun _ => none : FS) "cache/t.tif" = none := by
  refine ⟨by decide, by decide, rfl⟩

/-- C4: with `use_cache = true`, a URL whose deterministic cache path
already exists is never passed to the network layer (it is absent from
the call trace), its cache path is part of any successfully returned
list, and — for an input enumeration without duplicates — no URL is
fetched more than once. -/
theorem C4_cache_short_circuit (net : String → NetResult) (cache_folder : String)
    (fs : FS) (urls : List String) (url : String) (hmem : url ∈ urls)
    (hcached : (fs (_construct_tile_filename cache_folder url)).isSome = true) :
    url ∉ (_get_aws_terrain_urls net cache_folder true fs urls).2.2 ∧
      (∀ paths fs2 called,
        _get_aws_terrain_urls net cache_folder true fs urls
            = (Except.ok paths, fs2, called) →
          _construct_tile_filename cache_folder url ∈ paths) ∧
      (urls.Nodup → (_get_aws_terrain_urls net cache_folder true fs urls).2.2.Nodup) := by
  refine ⟨?_, ?_, ?_⟩
  · intro hin
    have h2 : url ∈ (_filter_cached_and_uncached cache_folder true fs urls).2 :=
      (terrain_trace_sublist net cache_folder true fs urls).subset hin
    have h3 := mem_uncached_cond cache_folder true fs urls url h2
    rw [hcached] at h3
    simp at h3
  · intro paths fs2 called h
    have h1 := terrain_ok_paths net cache_folder true fs urls paths fs2 called h
    rw [h1]
    refine List.mem_append_left _ ?_
    exact cached_path_mem cache_folder true fs urls url hmem (by simp [hcached])
  · intro hnd
    have hsub := (terrain_trace_sublist net cache_folder true fs urls).trans
      (uncached_sublist cache_folder true fs urls)
    exact hnd.sublist hsub

/-- Witness for C4: one URL, already cached. -/
theorem C4_cache_short_circuit_witness :
    "https://s3.amazonaws.com/elevation-tiles-prod/geotiff/1/0/1.tif" ∉
        (_get_aws_terrain_urls (fun _ => NetResult.connError "unused") "cache" true
          (fun p => if p = "cache/geotiff_1_0_1.tif" then some [] else none)
          ["https://s3.amazonaws.com/elevation-tiles-prod/geotiff/1/0/1.tif"]).2.2 ∧
      (∀ paths fs2 called,
        _get_aws_terrain_urls (fun _ => NetResult.connError "unused") "cache" true
            (fun p => if p = "cache/geotiff_1_0_1.tif" then some [] else none)
            ["https://s3.amazonaws.com/elevation-tiles-prod/geotiff/1/0/1.tif"]
            = (Except.ok paths, fs2, called) →
          _construct_tile_filename "cache"
              "https://s3.amazonaws.com/elevation-tiles-prod/geotiff/1/0/1.tif" ∈ paths) ∧
      ((["https://s3.amazonaws.com/elevation-tiles-prod/geotiff/1/0/1.tif"]).Nodup →
        (_get_aws_terrain_urls (fun _ => NetResult.connError "unused") "cache" true
          (fun p => if p = "cache/geotiff_1_0_1.tif" then some [] else none)
          ["https://s3.amazonaws.com/elevation-tiles-prod/geotiff/1/0/1.tif"]).2.2.Nodup) :=
  C4_cache_short_circuit (fun _ => NetResult.connError "unused") "cache"
    (fun p => if p = "cache/geotiff_1_0_1.tif" then some [] else none)
    ["https://s3.amazonaws.com/elevation-tiles-prod/geotiff/1/0/1.tif"]
    "https://s3.amazonaws.com/elevation-tiles-prod/geotiff/1/0/1.tif"
    (by decide) (by decide)

/-- C7 amended: merging an empty list of rasters fails, but with the
generic Python `IndexError` from evaluating `raster_list[0]`, not with a
distinct named empty-input condition. -/
theorem C7_empty_merge_amended {M : Type} (openMerge : String → List String → M) :
    _merge_rasters openMerge [] = Except.error (PyError.indexError "list index out of range") :=
  rfl

/-- Counterexample to C7: with an empty input list the merge raises the
anonymous `IndexError` (its message does not mention tiles or merging),
not a distinct `NoTilesToMerge` condition. -/
theorem C7_empty_merge_counterexample :
    _merge_rasters (fun _ _ => ()) ([] : List String)
        = Except.error (PyError.indexError "list index out of range") ∧
      strContains "list index out of range" "tile" = false ∧
      strContains "list index out of range" "Tile" = false ∧
      strContains "list index out of range" "merge" = false :=
  ⟨rfl, by decide, by decide, by decide⟩

/-! ## Raster entity (src/elevatr/raster.py) -/

/-- Affine transform coefficients in rasterio order `(a, b, c, d, e, f)`:
`x = a*col + b*row + c`, `y = d*col + e*row + f`, so `transform[0] = a`,
`transform[2] = c`, `transform[4] = e`, `transform[5] = f`. -/
structure Affine where
  a : ℚ
  b : ℚ
  c : ℚ
  d : ℚ
  e : ℚ
  f : ℚ
  deriving DecidableEq

/-- The metadata dictionary fields read by `Raster.__post_init__`. -/
structure RMeta where
  crs : Option String
  height : Option ℤ
  width : Option ℤ
  dtype : Option String
  nodata : Option ℚ
  transform : Option Affine
  imagery_sources : Option String
  deriving DecidableEq

/-- `Raster._resolution`: pixel sizes `(|transform[0]|, |transform[4]|)`
and the CRS axis unit.  The pyproj unit lookup is the oracle `crsUnit`. -/
def rasterResolution (crsUnit : String → String) (transform : Option Affine)
    (crs : Option String) : Option ℚ × Option ℚ × String :=
  match transform with
  | none => (none, none, "unknown")
  | some t =>
      match crs with
      | some c => (some |t.a|, some |t.e|, crsUnit c)
      | none => (some |t.a|, some |t.e|, "unknown")

/-- The derived bounds of `__post_init__` and `reproject`:
`(transform[2], transform[5] + height*transform[4],
transform[2] + width*transform[0], transform[5])` when transform, height
and width are all present. -/
def rasterBounds (transform : Option Affine) (height width : Option ℤ) :
    Option (ℚ × ℚ × ℚ × ℚ) :=
  match transform, height, width with
  | some t, some h, some w =>
      some (t.c, t.f + (h : ℚ) * t.e, t.c + (w : ℚ) * t.a, t.f)
  | _, _, _ => none

/-- src/elevatr/raster.py, `Raster`: the dataclass after `__post_init__`
has run; `data` holds only the first band `data[0]`. -/
structure Raster where
  data : List (List ℚ)
  meta : RMeta
  crs : Option String
  height : Option ℤ
  width : Option ℤ
  dtype : Option String
  nodata : Option ℚ
  transform : Option Affine
  bounds : Option (ℚ × ℚ × ℚ × ℚ)
  resolutionX : Option ℚ
  resolutionY : Option ℚ
  resolutionUnit : String

/-- `Raster(data, meta)` construction including `__post_init__`:
`self.data = self.data[0]` (Python indexing, so a band axis of length 0
raises `IndexError`) and the derived attributes from `meta`. -/
def mkRaster (crsUnit : String → String) (data : List (List (List ℚ)))
    (meta : RMeta) : Except PyError Raster :=
  match pyGet data 0 with
  | Except.error e => Except.error e
  | Except.ok band0 =>
      let res := rasterResolution crsUnit meta.transform meta.crs
      Except.ok
        { data := band0
          meta := meta
          crs := meta.crs
          height := meta.height
          width := meta.width
          dtype := meta.dtype
          nodata := meta.nodata
          transform := meta.transform
          bounds := rasterBounds meta.transform meta.height meta.width
          resolutionX := res.1
          resolutionY := res.2.1
          resolutionUnit := res.2.2 }

/-- `Raster.to_numpy`: returns the stored (single-band) array. -/
def Raster.to_numpy (r : Raster) : List (List ℚ) := r.data

def valid_compressions : List (Option String) :=
  [none, some "lzw", some "packbits", some "deflate", some "zstd", some "lzma"]

/-- `Raster.to_tif`: validates the compression mode before any I/O and
hands `self.data` to `dst.write(self.data, 1)`; the GeoTIFF encoding is
external I/O, so the modelled result is the array written as band 1. -/
def Raster.to_tif (r : Raster) (compress : Option String) :
    Except String (List (List ℚ)) :=
  if compress ∈ valid_compressions then Except.ok r.data
  else Except.error "Invalid compression type"

/-- The result of the external `_reproject_raster` resampling (rioxarray
reproject plus metadata update): new array and new metadata. -/
structure ReprojResult where
  newData : List (List ℚ)
  newMeta : RMeta

/-- src/elevatr/raster.py, `Raster.reproject`: does nothing when
`self.crs` already equals the requested CRS, otherwise delegates to the
resampler (oracle, since the resampling itself is external rioxarray
work) and recomputes the derived attributes.  The boolean records whether
`_reproject_raster` was invoked. -/
def Raster.reproject (resample : List (List ℚ) → RMeta → String → ReprojResult)
    (crsUnit : String → String) (r : Raster) (crs : String) : Raster × Bool :=
  if r.crs ≠ some crs then
    let rr := resample r.data r.meta crs
    let res := rasterResolution crsUnit rr.newMeta.transform rr.newMeta.crs
    ({ data := rr.newData
       meta := rr.newMeta
       crs := rr.newMeta.crs
       height := rr.newMeta.height
       width := rr.newMeta.width
       dtype := rr.newMeta.dtype
       nodata := rr.newMeta.nodata
       transform := rr.newMeta.transform
       bounds := rasterBounds rr.newMeta.transform rr.newMeta.height rr.newMeta.width
       resolutionX := res.1
       resolutionY := res.2.1
       resolutionUnit := res.2.2 }, true)
  else (r, false)

/-- C8: reprojecting a raster whose CRS already equals the requested CRS
is a no-op — the raster (data buffer, metadata, transform, width, height,
bounds, resolution) is returned unchanged and the resampler is never
invoked, whatever resampler is supplied. -/
theorem C8_reproject_noop (resample : List (List ℚ) → RMeta → String → ReprojResult)
    (crsUnit : String → String) (r : Raster) (crs : String)
    (h : r.crs = some crs) :
    Raster.reproject resample crsUnit r crs = (r, false) := by
  unfold Raster.reproject
  rw [if_neg]
  simp [h]

/-- Witness for C8 on a concrete raster already in EPSG:3857. -/
theorem C8_reproject_noop_witness :
    Raster.reproject (fun d m _ => ReprojResult.mk d m) (fun _ => "metre")
        { data := [[1, 2], [3, 4]]
          meta := { crs := some "EPSG:3857", height := some 2, width := some 2,
                    dtype := some "float32", nodata := some (-9999), transform := none,
                    imagery_sources := none }
          crs := some "EPSG:3857"
          height := some 2
          width := some 2
          dtype := some "float32"
          nodata := some (-9999)
          transform := none
          bounds := none
          resolutionX := none
          resolutionY := none
          resolutionUnit := "unknown" } "EPSG:3857"
      = ({ data := [[1, 2], [3, 4]]
           meta := { crs := some "EPSG:3857", height := some 2, width := some 2,
                     dtype := some "float32", nodata := some (-9999), transform := none,
                     imagery_sources := none }
           crs := some "EPSG:3857"
           height := some 2
           width := some 2
           dtype := some "float32"
           nodata := some (-9999)
           transform := none
           bounds := none
           resolutionX := none
           resolutionY := none
           resolutionUnit := "unknown" }, false) :=
  C8_reproject_noop _ _ _ "EPSG:3857" rfl

/-- C10: constructing a `Raster` from an array with a leading band
dimension keeps only the first band: the stored data is `data[0]`,
`to_numpy` returns it, and `to_tif` writes it (all derived operations
read `self.data`, which is band 0, whatever the original band count). -/
theorem C10_first_band_only (crsUnit : String → String) (b : List (List ℚ))
    (rest : List (List (List ℚ))) (meta : RMeta) :
    ∃ r, mkRaster crsUnit (b :: rest) meta = Except.ok r ∧
      r.data = b ∧ Raster.to_numpy r = b ∧
      Raster.to_tif r none = Except.ok b ∧
      Raster.to_tif r (some "lzw") = Except.ok b := by
  refine ⟨_, rfl, rfl, rfl, ?_, ?_⟩ <;> rfl

/-! ## Bounding-box clipper (src/elevatr/raster_operations.py, `_clip_bbx`) -/

/-- Metadata fields used by the clip stage (all present after merging). -/
structure GridMeta where
  height : ℤ
  width : ℤ
  transform : Affine
  deriving DecidableEq

/-- src/elevatr/utils.py, `_convert_bbox_crs`: transform the two corner
points with a pyproj transformer (the oracle `tp`, called as
`transformer.transform(bbx[1], bbx[0])`, i.e. latitude first). -/
def _convert_bbox_crs (tp : ℚ → ℚ → ℚ × ℚ) (bbx : ℚ × ℚ × ℚ × ℚ) :
    ℚ × ℚ × ℚ × ℚ :=
  let p1 := tp bbx.2.1 bbx.1
  let p2 := tp bbx.2.2.2 bbx.2.2.1
  (p1.1, p1.2, p2.1, p2.2)

/-- A fractional pixel window, as in rasterio. -/
structure WindowQ where
  col_off : ℚ
  row_off : ℚ
  width : ℚ
  height : ℚ

/-- Modelled from rasterio's documented semantics:
`rasterio.windows.from_bounds` for a rectilinear transform inverts
`col = (x - c)/a`, `row = (y - f)/e` at the corners `(left, top)` and
`(right, bottom)`. -/
def from_bounds (left bottom right top : ℚ) (t : Affine) : WindowQ :=
  { col_off := (left - t.c) / t.a
    row_off := (top - t.f) / t.e
    width := (right - left) / t.a
    height := (bottom - top) / t.e }

/-- Modelled from rasterio's documented semantics: `Window.crop`, the
clamp that `DatasetReader.read` (default `boundless=False`) applies to
intersect a requested window with the dataset extent. -/
def WindowQ.crop (w : WindowQ) (height width : ℤ) : WindowQ :=
  let row_start := min (max w.row_off 0) (height : ℚ)
  let col_start := min (max w.col_off 0) (width : ℚ)
  let row_stop := max row_start (min (w.row_off + w.height) (height : ℚ))
  let col_stop := max col_start (min (w.col_off + w.width) (width : ℚ))
  { col_off := col_start
    row_off := row_start
    width := col_stop - col_start
    height := row_stop - row_start }

/-- The integer pixel window `(row0, row1, col0, col1)` actually read for
a clip request: `from_bounds` on the converted box, cropped to the
dataset, with outer rounding of the rational offsets. -/
def clipWindow (tp : ℚ → ℚ → ℚ × ℚ) (meta : GridMeta) (bbx : ℚ × ℚ × ℚ × ℚ) :
    ℤ × ℤ × ℤ × ℤ :=
  let wm := _convert_bbox_crs tp bbx
  let w := from_bounds wm.1 wm.2.1 wm.2.2.1 wm.2.2.2 meta.transform
  let cw := w.crop meta.height meta.width
  (⌊cw.row_off⌋, ⌈cw.row_off + cw.height⌉, ⌊cw.col_off⌋, ⌈cw.col_off + cw.width⌉)

/-- Read the pixel rows `[r0, r1)` and columns `[c0, c1)` of a grid. -/
def sliceGrid (data : List (List ℚ)) (r0 r1 c0 c1 : ℤ) : List (List ℚ) :=
  ((data.drop r0.toNat).take (r1 - r0).toNat).map fun row =>
    (row.drop c0.toNat).take (c1 - c0).toNat

/-- src/elevatr/raster_operations.py, `_clip_bbx`: convert the WGS84 box
to Web Mercator, compute the window with `from_bounds`, read that window
(clamped by rasterio to the dataset extent), and update the metadata with
the windowed transform and the shape of the data that was read. -/
def _clip_bbx (tp : ℚ → ℚ → ℚ × ℚ) (data : List (List ℚ)) (meta : GridMeta)
    (bbx : ℚ × ℚ × ℚ × ℚ) : List (List ℚ) × GridMeta :=
  let rc := clipWindow tp meta bbx
  let data2 := sliceGrid data rc.1 rc.2.1 rc.2.2.1 rc.2.2.2
  let t := meta.transform
  (data2,
    { height := rc.2.1 - rc.1
      width := rc.2.2.2 - rc.2.2.1
      transform := { t with c := t.c + (rc.2.2.1 : ℚ) * t.a,
                            f := t.f + (rc.1 : ℚ) * t.e } })

lemma clipWindow_bounds (tp : ℚ → ℚ → ℚ × ℚ) (meta : GridMeta) (bbx : ℚ × ℚ × ℚ × ℚ)
    (hH : 0 ≤ meta.height) (hW : 0 ≤ meta.width) :
    0 ≤ (clipWindow tp meta bbx).1 ∧
      (clipWindow tp meta bbx).1 ≤ (clipWindow tp meta bbx).2.1 ∧
      (clipWindow tp meta bbx).2.1 ≤ meta.height ∧
      0 ≤ (clipWindow tp meta bbx).2.2.1 ∧
      (clipWindow tp meta bbx).2.2.1 ≤ (clipWindow tp meta bbx).2.2.2 ∧
      (clipWindow tp meta bbx).2.2.2 ≤ meta.width := by
  unfold clipWindow WindowQ.crop
  dsimp only
  set w := from_bounds (_convert_bbox_crs tp bbx).1 (_convert_bbox_crs tp bbx).2.1
    (_convert_bbox_crs tp bbx).2.2.1 (_convert_bbox_crs tp bbx).2.2.2 meta.transform
  set rs := min (max w.row_off 0) ((meta.height : ℤ) : ℚ) with hrs
  set cs := min (max w.col_off 0) ((meta.width : ℤ) : ℚ) with hcs
  have hrs0 : 0 ≤ rs := le_min (le_max_right _ _) (by exact_mod_cast hH)
  have hcs0 : 0 ≤ cs := le_min (le_max_right _ _) (by exact_mod_cast hW)
  have hrsH : rs ≤ (meta.height : ℚ) := min_le_right _ _
  have hcsW : cs ≤ (meta.width : ℚ) := min_le_right _ _
  have hrstop : rs + (max rs (min (w.row_off + w.height) ((meta.height : ℤ) : ℚ)) - rs)
      = max rs (min (w.row_off + w.height) ((meta.height : ℤ) : ℚ)) := by ring
  have hcstop : cs + (max cs (min (w.col_off + w.width) ((meta.width : ℤ) : ℚ)) - cs)
      = max cs (min (w.col_off + w.width) ((meta.width : ℤ) : ℚ)) := by ring
  rw [hrstop, hcstop]
  set rstop := max rs (min (w.row_off + w.height) ((meta.height : ℤ) : ℚ)) with hrstop2
  set cstop := max cs (min (w.col_off + w.width) ((meta.width : ℤ) : ℚ)) with hcstop2
  have h1 : rs ≤ rstop := le_max_left _ _
  have h2 : rstop ≤ (meta.height : ℚ) := max_le hrsH (min_le_right _ _)
  have h3 : cs ≤ cstop := le_max_left _ _
  have h4 : cstop ≤ (meta.width : ℚ) := max_le hcsW (min_le_right _ _)
  refine ⟨?_, ?_, ?_, ?_, ?_, ?_⟩
  · exact Int.le_floor.mpr (by exact_mod_cast hrs0)
  · have : (⌊rs⌋ : ℚ) ≤ (⌈rstop⌉ : ℚ) :=
      le_trans (Int.floor_le rs) (le_trans h1 (Int.le_ceil rstop))
    exact_mod_cast this
  · exact Int.ceil_le.mpr (by exact_mod_cast h2)
  · exact Int.le_floor.mpr (by exact_mod_cast hcs0)
  · have : (⌊cs⌋ : ℚ) ≤ (⌈cstop⌉ : ℚ) :=
      le_trans (Int.floor_le cs) (le_trans h3 (Int.le_ceil cstop))
    exact_mod_cast this
  · exact Int.ceil_le.mpr (by exact_mod_cast h4)

/-- C9: for every raster buffer and every WGS84 box — including boxes
partially or fully outside the buffer's extent — the clip computes a
pixel window clamped to the buffer: the window satisfies
`0 ≤ row0 ≤ row1 ≤ height` and `0 ≤ col0 ≤ col1 ≤ width` (so no
out-of-range pixel index is ever read and the resulting size is never
negative), and the updated metadata's height/width equal the clipped
array's dimensions. -/
theorem C9_clip_window_safety (tp : ℚ → ℚ → ℚ × ℚ) (data : List (List ℚ))
    (meta : GridMeta) (bbx : ℚ × ℚ × ℚ × ℚ)
    (hH : 0 ≤ meta.height) (hW : 0 ≤ meta.width)
    (hdata : (data.length : ℤ) = meta.height)
    (hrows : ∀ row ∈ data, (row.length : ℤ) = meta.width) :
    (0 ≤ (clipWindow tp meta bbx).1 ∧
        (clipWindow tp meta bbx).1 ≤ (clipWindow tp meta bbx).2.1 ∧
        (clipWindow tp meta bbx).2.1 ≤ meta.height ∧
        0 ≤ (clipWindow tp meta bbx).2.2.1 ∧
        (clipWindow tp meta bbx).2.2.1 ≤ (clipWindow tp meta bbx).2.2.2 ∧
        (clipWindow tp meta bbx).2.2.2 ≤ meta.width) ∧
      0 ≤ (_clip_bbx tp data meta bbx).2.height ∧
      0 ≤ (_clip_bbx tp data meta bbx).2.width ∧
      ((_clip_bbx tp data meta bbx).1.length : ℤ) = (_clip_bbx tp data meta bbx).2.height ∧
      ∀ row ∈ (_clip_bbx tp data meta bbx).1,
        (row.length : ℤ) = (_clip_bbx tp data meta bbx).2.width := by
  obtain ⟨h1, h2, h3, h4, h5, h6⟩ := clipWindow_bounds tp meta bbx hH hW
  refine ⟨⟨h1, h2, h3, h4, h5, h6⟩, ?_, ?_, ?_, ?_⟩
  · unfold _clip_bbx
    dsimp only
    omega
  · unfold _clip_bbx
    dsimp only
    omega
  · unfold _clip_bbx sliceGrid
    dsimp only
    rw [List.length_map, List.length_take, List.length_drop]
    omega
  · intro row hrow
    unfold _clip_bbx sliceGrid at hrow ⊢
    dsimp only at hrow ⊢
    obtain ⟨row0, hrow0, rfl⟩ := List.mem_map.mp hrow
    have hrow0mem : row0 ∈ data :=
      List.mem_of_mem_drop (List.mem_of_mem_take hrow0)
    have hlen := hrows row0 hrow0mem
    rw [List.length_take, List.length_drop]
    omega

/-- Witness for C9 on a concrete 2x2 grid and a box reaching outside it. -/
theorem C9_clip_window_safety_witness :
    (0 ≤ (clipWindow (fun a b => (a, b))
            { height := 2, width := 2, transform := { a := 1, b := 0, c := 0, d := 0, e := -1, f := 0 } }
            ((-5 : ℚ), (-5 : ℚ), (5 : ℚ), (5 : ℚ))).1 ∧
        (clipWindow (fun a b => (a, b))
            { height := 2, width := 2, transform := { a := 1, b := 0, c := 0, d := 0, e := -1, f := 0 } }
            ((-5 : ℚ), (-5 : ℚ), (5 : ℚ), (5 : ℚ))).1 ≤
          (clipWindow (fun a b => (a, b))
            { height := 2, width := 2, transform := { a := 1, b := 0, c := 0, d := 0, e := -1, f := 0 } }
            ((-5 : ℚ), (-5 : ℚ), (5 : ℚ), (5 : ℚ))).2.1 ∧
        (clipWindow (fun a b => (a, b))
            { height := 2, width := 2, transform := { a := 1, b := 0, c := 0, d := 0, e := -1, f := 0 } }
            ((-5 : ℚ), (-5 : ℚ), (5 : ℚ), (5 : ℚ))).2.1 ≤
          ({ height := 2, width := 2, transform := { a := 1, b := 0, c := 0, d := 0, e := -1, f := 0 } } : GridMeta).height ∧
        0 ≤ (clipWindow (fun a b => (a, b))
            { height := 2, width := 2, transform := { a := 1, b := 0, c := 0, d := 0, e := -1, f := 0 } }
            ((-5 : ℚ), (-5 : ℚ), (5 : ℚ), (5 : ℚ))).2.2.1 ∧
        (clipWindow (fun a b => (a, b))
            { height := 2, width := 2, transform := { a := 1, b := 0, c := 0, d := 0, e := -1, f := 0 } }
            ((-5 : ℚ), (-5 : ℚ), (5 : ℚ), (5 : ℚ))).2.2.1 ≤
          (clipWindow (fun a b => (a, b))
            { height := 2, width := 2, transform := { a := 1, b := 0, c := 0, d := 0, e := -1, f := 0 } }
            ((-5 : ℚ), (-5 : ℚ), (5 : ℚ), (5 : ℚ))).2.2.2 ∧
        (clipWindow (fun a b => (a, b))
            { height := 2, width := 2, transform := { a := 1, b := 0, c := 0, d := 0, e := -1, f := 0 } }
            ((-5 : ℚ), (-5 : ℚ), (5 : ℚ), (5 : ℚ))).2.2.2 ≤
          ({ height := 2, width := 2, transform := { a := 1, b := 0, c := 0, d := 0, e := -1, f := 0 } } : GridMeta).width) ∧
      0 ≤ (_clip_bbx (fun a b => (a, b)) [[1, 2], [3, 4]]
            { height := 2, width := 2, transform := { a := 1, b := 0, c := 0, d := 0, e := -1, f := 0 } }
            ((-5 : ℚ), (-5 : ℚ), (5 : ℚ), (5 : ℚ))).2.height ∧
      0 ≤ (_clip_bbx (fun a b => (a, b)) [[1, 2], [3, 4]]
            { height := 2, width := 2, transform := { a := 1, b := 0, c := 0, d := 0, e := -1, f := 0 } }
            ((-5 : ℚ), (-5 : ℚ), (5 : ℚ), (5 : ℚ))).2.width ∧
      ((_clip_bbx (fun a b => (a, b)) [[1, 2], [3, 4]]
            { height := 2, width := 2, transform := { a := 1, b := 0, c := 0, d := 0, e := -1, f := 0 } }
            ((-5 : ℚ), (-5 : ℚ), (5 : ℚ), (5 : ℚ))).1.length : ℤ)
        = (_clip_bbx (fun a b => (a, b)) [[1, 2], [3, 4]]
            { height := 2, width := 2, transform := { a := 1, b := 0, c := 0, d := 0, e := -1, f := 0 } }
            ((-5 : ℚ), (-5 : ℚ), (5 : ℚ), (5 : ℚ))).2.height ∧
      ∀ row ∈ (_clip_bbx (fun a b => (a, b)) [[1, 2], [3, 4]]
            { height := 2, width := 2, transform := { a := 1, b := 0, c := 0, d := 0, e := -1, f := 0 } }
            ((-5 : ℚ), (-5 : ℚ), (5 : ℚ), (5 : ℚ))).1,
        (row.length : ℤ) = (_clip_bbx (fun a b => (a, b)) [[1, 2], [3, 4]]
            { height := 2, width := 2, transform := { a := 1, b := 0, c := 0, d := 0, e := -1, f := 0 } }
            ((-5 : ℚ), (-5 : ℚ), (5 : ℚ), (5 : ℚ))).2.width :=
  C9_clip_window_safety (fun a b => (a, b)) [[1, 2], [3, 4]]
    { height := 2, width := 2, transform := { a := 1, b := 0, c := 0, d := 0, e := -1, f := 0 } }
    ((-5 : ℚ), (-5 : ℚ), (5 : ℚ), (5 : ℚ)) (by decide) (by decide) (by decide)
    (by decide)

end Elevatr
